import Mathlib

/-!
Verification of the fiberhandler package (a Fiber web-framework handler
adapter).  The development shallowly embeds the Go sources:

* JWTParser.ParseToken: splits the token on dots, pads and base64url-decodes
  the middle segment and JSON-unmarshals it.  The base64 decoder models Go's
  encoding/base64 URLEncoding in its default (non-strict) mode: it skips CR
  and LF characters, decodes four-character quanta over the URL alphabet,
  accepts one or two '=' padding characters only at the very end of the
  input, and ignores trailing bits.  JSON unmarshalling is external
  (github.com/goccy/go-json), so it is a parameter of the embedding.

* apiHandler.Do / DoMultipart: the Fiber context, the validator library and
  the gopkg helpers are external, so they appear as oracle fields of the
  context/handler records; the control flow, the envelope chosen for each
  outcome, the token-source selection and the request-info injection are
  translated branch by branch from the source.
-/

namespace Fiberhandler

/-- Value of a character in the base64url alphabet used by Go's
base64.URLEncoding (A-Z, a-z, 0-9, '-', '_'); none for every other
character. -/
def b64UrlVal (c : Char) : Option Nat :=
  if 'A' ≤ c ∧ c ≤ 'Z' then some (c.toNat - 65)
  else if 'a' ≤ c ∧ c ≤ 'z' then some (c.toNat - 97 + 26)
  else if '0' ≤ c ∧ c ≤ '9' then some (c.toNat - 48 + 52)
  else if c = '-' then some 62
  else if c = '_' then some 63
  else none

/-- Decode a CR/LF-free character sequence as base64 quanta, following Go's
decodeQuantum: four data characters yield three bytes; a final quantum may
end in one or two '=' padding characters (yielding two bytes or one byte,
trailing bits ignored as in Go's non-strict mode); '=' anywhere else, a
character outside the alphabet, data after a padded quantum, or an
incomplete final quantum is an error (none). -/
def decodeQuanta : List Char → Option (List Nat)
  | [] => some []
  | a :: b :: c :: d :: rest =>
    match b64UrlVal a, b64UrlVal b with
    | some va, some vb =>
      if c = '=' then
        if d = '=' ∧ rest = [] then some [va * 4 + vb / 16] else none
      else
        match b64UrlVal c with
        | some vc =>
          if d = '=' then
            if rest = [] then some [va * 4 + vb / 16, vb % 16 * 16 + vc / 4]
            else none
          else
            match b64UrlVal d with
            | some vd =>
              match decodeQuanta rest with
              | some bs =>
                some ((va * 4 + vb / 16) :: (vb % 16 * 16 + vc / 4) ::
                      (vc % 4 * 64 + vd) :: bs)
              | none => none
            | none => none
        | none => none
    | _, _ => none
  | _ => none
termination_by structural l => l

/-- Go's base64 decoder skips '\r' and '\n' wherever they occur. -/
def stripNewlines (s : String) : List Char :=
  s.data.filter fun c => !(c == '\n' || c == '\r')

/-- base64.URLEncoding.DecodeString: strip CR/LF, then decode quanta. -/
def decodeBase64URL (s : String) : Option (List Nat) :=
  decodeQuanta (stripNewlines s)

/-- The padding step of ParseToken:
if m := len(payload) % 4; m != 0 then payload += strings.Repeat("=", 4-m).
Go's len is the UTF-8 byte length. -/
def addBase64Padding (payload : String) : String :=
  let m := payload.utf8ByteSize % 4
  if m ≠ 0 then payload ++ String.mk (List.replicate (4 - m) '=') else payload

/-- strings.Split(s, ".") from the Go standard library, specialised to the
single-character separator ParseToken uses: character-level split into the
segments between dots (n dots give n+1 segments; no dot gives the whole
input as the only segment). -/
def splitDotChars : List Char → List (List Char)
  | [] => [[]]
  | c :: rest =>
    if c = '.' then [] :: splitDotChars rest
    else
      match splitDotChars rest with
      | [] => [[c]]
      | seg :: segs => (c :: seg) :: segs

/-- strings.Split(tokenString, ".") on strings. -/
def goSplitDot (s : String) : List String :=
  (splitDotChars s.data).map String.mk

/-- The three error exits of JWTParser.ParseToken (fmt.Errorf values). -/
inductive JWTError where
  | invalidFormat
  | decodeFailed
  | unmarshalFailed
  deriving DecidableEq, Repr

/-- JWTParser.ParseToken.  The token is split on dots; unless that yields
exactly 3 parts the format error is returned; the second part is padded and
base64url-decoded; the decoded bytes are unmarshalled by the external JSON
library, modelled by the parameter unmarshal (none = unmarshal error). -/
def ParseToken {T : Type} (unmarshal : List Nat → Option T)
    (tokenString : String) : Except JWTError T :=
  match goSplitDot tokenString with
  | [_, payload, _] =>
    match decodeBase64URL (addBase64Padding payload) with
    | none => .error .decodeFailed
    | some decoded =>
      match unmarshal decoded with
      | none => .error .unmarshalFailed
      | some claims => .ok claims
  | _ => .error .invalidFormat

/-! ## The handler adapter (apiHandler) -/

/-- goerror.Body: the code/message pair carried by the error envelopes.
DataInvalidError embeds it and this package constructs it with the fixed
code CLE029. -/
structure Body where
  code : String
  message : String
  deriving DecidableEq, Repr

/-- NewDataInvalidError: the envelope body of the validation-failure
error. -/
def NewDataInvalidError : Body :=
  ⟨"CLE029", "Invalid data provided"⟩

/-- streamx.Stream: the fields the handler reads (ContentType, Filename,
Size, Data).  The reader behind Data is opaque to this package, so its
type is a parameter. -/
structure Stream (S : Type) where
  contentType : String
  filename : String
  size : Option Int
  data : S
  deriving DecidableEq, Repr

/-- The dynamic type of the any value a DoFunc returns: plain data (to be
wrapped in the OK envelope) or a *streamx.Stream. -/
inductive DoData (V S : Type) where
  | plain (v : V)
  | stream (s : Stream S)
  deriving DecidableEq, Repr

/-- The single response a Do/DoMultipart call writes through
h.Response.With(c).Response(...) or c.SendStream: nothing at all (the
early nil returns of DoMultipart), a goerror.NewBadRequest envelope (with
its optional custom message), the DataInvalidError envelope, the envelope
for the callback's error, the goerror.NewOK envelope, or a stream sent
with an attachment header built from the content type and filename and
with the size argument when one was given. -/
inductive Resp (E V S : Type) where
  | nil
  | badRequest (msg : Option String)
  | dataInvalid (body : Body)
  | errEnvelope (e : E)
  | okEnvelope (d : DoData V S)
  | streamSent (contentType filename : String) (data : S) (size : Option Int)
  deriving DecidableEq, Repr

/-- core.RequestInfo: only its Claims field is set by this package. -/
structure RequestInfo (T : Type) where
  claims : Option T
  deriving DecidableEq, Repr

/-- The handler's collaborators: the token parser behind the TokenParser
interface (the Go (pointer, error) pair, an ok nil pointer being allowed
by the interface) and the validator library behind h.Validate.Struct
(true = no validation error; its argument is the requestPtr, which Do may
leave nil). -/
structure Handler (T R : Type) where
  tokenParse : String → Except String (Option T)
  validateStruct : Option R → Bool

/-- The Fiber context as the handler observes it.  Each field is the
outcome of one framework or gopkg primitive the source calls: method,
multipartx.IsMultipartForm, the token form value, the bearer token
core.ExtractToken extracts from the Authorization header, the Token field
left in a core.AccessToken by c.BodyParser (empty when that parse fails,
since its error is discarded and the zero value used), the query/body
parsers (which mutate the pointed-to request, modelled as an error or the
updated request), whether c.MultipartForm() succeeds, and the two
DoMultipart loops over FormFields (typex.SetField per field, an error
carrying the field name and error text) and FileFields (which receives
validateRequest and allowedTypes because they gate the MIME check inside
the loop). -/
structure Ctx (R : Type) where
  method : String
  isMultipartForm : Bool
  formTokenValue : String
  authBearerToken : String
  bodyAccessToken : String
  queryParse : R → Except Unit R
  bodyParse : R → Except Unit R
  multipartFormOk : Bool
  formFieldsSet : R → Except (String × String) R
  fileFieldsSet : Bool → List String → R → R

/-- getRequestInfo: an empty token (core.IsEmpty) or a parser error yields
nil claims; otherwise the pointer the parser returned. -/
def getRequestInfo {T R : Type} (h : Handler T R) (tok : String) : Option T :=
  if tok = "" then none
  else
    match h.tokenParse tok with
    | .error _ => none
    | .ok t => t

/-- getRequestToken: the bearer token from the Authorization header, or,
only when that is empty, the Token field of the body parsed as
core.AccessToken. -/
def getRequestToken {R : Type} (c : Ctx R) : String :=
  if c.authBearerToken = "" then c.bodyAccessToken else c.authBearerToken

/-- The token-selection closure getUserRequestInfo passes to
getRequestInfo: the token form value for multipart forms, otherwise
getRequestToken. -/
def tokenSource {R : Type} (c : Ctx R) : String :=
  if c.isMultipartForm then c.formTokenValue else getRequestToken c

/-- getUserRequestInfo: getRequestInfo on the selected token. -/
def getUserRequestInfo {T R : Type} (h : Handler T R) (c : Ctx R) : Option T :=
  getRequestInfo h (tokenSource c)

/-- requestParserIfNeeded: a nil request is only logged (nil error); GET
and DELETE parse the query string, every other method the body; a parser
error is answered with the BadRequest envelope.  Besides the response
(none = nil error) the possibly updated request is returned, standing for
the mutation of requestPtr. -/
def requestParserIfNeeded {R E V S : Type} (c : Ctx R) (requestPtr : Option R) :
    Option (Resp E V S) × Option R :=
  match requestPtr with
  | none => (none, none)
  | some req =>
    if c.method = "GET" ∨ c.method = "DELETE" then
      match c.queryParse req with
      | .error _ => (some (.badRequest none), some req)
      | .ok req2 => (none, some req2)
    else
      match c.bodyParse req with
      | .error _ => (some (.badRequest none), some req)
      | .ok req2 => (none, some req2)

/-- sendStream: attachment header from ContentType and Filename, then
SendStream with the size argument exactly when Size is non-nil. -/
def sendStream {E V S : Type} (s : Stream S) : Resp E V S :=
  match s.size with
  | some n => .streamSent s.contentType s.filename s.data (some n)
  | none => .streamSent s.contentType s.filename s.data none

/-- What one call of Do/DoMultipart did: the response written, the
RequestInfo handed to SetRequestInfo (none when the core.Request type
assertion failed or the call returned earlier), and whether the
validator, the callback and c.MultipartForm() were reached. -/
structure DoOutcome (T E V S : Type) where
  resp : Resp E V S
  infoSet : Option (RequestInfo T)
  validatorCalled : Bool
  doFuncInvoked : Bool
  multipartParsed : Bool
  deriving DecidableEq, Repr

/-- apiHandler.Do.  implementsRequest is the core.Request[T] type
assertion on requestPtr (false whenever requestPtr is the nil interface,
as in Go); doFunc is the callback's result. -/
def Do {T R E V S : Type} (h : Handler T R) (c : Ctx R) (requestPtr : Option R)
    (validateRequest : Bool) (implementsRequest : Bool)
    (doFunc : Except E (DoData V S)) : DoOutcome T E V S :=
  match requestParserIfNeeded (E := E) (V := V) (S := S) c requestPtr with
  | (some r, _) => ⟨r, none, false, false, false⟩
  | (none, reqAfter) =>
    if validateRequest && !(h.validateStruct reqAfter) then
      ⟨.dataInvalid NewDataInvalidError, none, true, false, false⟩
    else
      let iset : Option (RequestInfo T) :=
        if requestPtr.isSome && implementsRequest then
          some ⟨getUserRequestInfo h c⟩
        else none
      match doFunc with
      | .error e => ⟨.errEnvelope e, iset, validateRequest, true, false⟩
      | .ok (.stream s) => ⟨sendStream s, iset, validateRequest, true, false⟩
      | .ok (.plain v) =>
        ⟨.okEnvelope (.plain v), iset, validateRequest, true, false⟩

/-- apiHandler.DoMultipart.  implementsMultipart is the
multipartx.Request type assertion, implementsRequest the core.Request[T]
assertion.  Unlike Do it returns nil untouched for GET/DELETE and for a
nil request, parses the multipart form, runs the two field loops, and
wraps every successful callback result in the OK envelope with no stream
special case. -/
def DoMultipart {T R E V S : Type} (h : Handler T R) (c : Ctx R)
    (requestPtr : Option R) (validateRequest : Bool)
    (allowedTypes : List String) (implementsMultipart : Bool)
    (implementsRequest : Bool) (doFunc : Except E (DoData V S)) :
    DoOutcome T E V S :=
  if c.method = "GET" ∨ c.method = "DELETE" then
    ⟨.nil, none, false, false, false⟩
  else
    match requestPtr with
    | none => ⟨.nil, none, false, false, false⟩
    | some req =>
      if !c.multipartFormOk then
        ⟨.badRequest none, none, false, false, true⟩
      else if !implementsMultipart then
        ⟨.badRequest (some "Invalid request type"), none, false, false, true⟩
      else
        match c.formFieldsSet req with
        | .error (fieldName, errText) =>
          ⟨.badRequest (some ("Invalid value for field \x27" ++ fieldName ++
            "\x27: " ++ errText)), none, false, false, true⟩
        | .ok req2 =>
          let req3 := c.fileFieldsSet validateRequest allowedTypes req2
          if validateRequest && !(h.validateStruct (some req3)) then
            ⟨.dataInvalid NewDataInvalidError, none, true, false, true⟩
          else
            let iset : Option (RequestInfo T) :=
              if implementsRequest then some ⟨getUserRequestInfo h c⟩ else none
            match doFunc with
            | .error e => ⟨.errEnvelope e, iset, validateRequest, true, true⟩
            | .ok d => ⟨.okEnvelope d, iset, validateRequest, true, true⟩

/-! ## Concrete fixtures used to evaluate the handler -/

/-- A POST context whose parsers succeed; the body parse increments the
request value to make the mutation observable. -/
def ctxPost : Ctx Nat :=
  ⟨"POST", false, "", "tok9", "", fun r => .ok r, fun r => .ok (r + 1), true,
    fun r => .ok r, fun _ _ r => r⟩

/-- A GET context whose query parse succeeds. -/
def ctxGet : Ctx Nat :=
  ⟨"GET", false, "", "", "", fun r => .ok (r + 2), fun r => .ok r, true,
    fun r => .ok r, fun _ _ r => r⟩

/-- A GET context whose query parse fails; its Authorization header is
empty and the body carries the access token btok. -/
def ctxGetBad : Ctx Nat :=
  ⟨"GET", false, "", "", "btok", fun _ => .error (), fun r => .ok r, true,
    fun r => .ok r, fun _ _ r => r⟩

/-- A POST context whose body parse fails and that carries no token at
all. -/
def ctxPostBad : Ctx Nat :=
  ⟨"POST", false, "", "", "", fun r => .ok r, fun _ => .error (), true,
    fun r => .ok r, fun _ _ r => r⟩

/-- A POST multipart-form context with the form value token ftok. -/
def ctxMulti : Ctx Nat :=
  ⟨"POST", true, "ftok", "tok9", "", fun r => .ok r, fun r => .ok r, true,
    fun r => .ok r, fun _ _ r => r⟩

/-- A handler whose token parser accepts exactly tok9 (claims value 7) and
whose validator accepts everything. -/
def handlerAccept : Handler Nat Nat :=
  ⟨fun tok => if tok = "tok9" then .ok (some 7) else .error "parse",
    fun _ => true⟩

/-- A handler whose token parser always fails and whose validator rejects
everything. -/
def handlerReject : Handler Nat Nat :=
  ⟨fun _ => .error "parse", fun _ => false⟩

/-! ## Helper lemmas about the token parser -/

/-- Character data of an appended string. -/
theorem data_append_chars (p q : String) : (p ++ q).data = p.data ++ q.data := by
  cases p
  cases q
  rfl

/-- Stripping newlines distributes over append. -/
theorem stripNewlines_append (p q : String) :
    stripNewlines (p ++ q) = stripNewlines p ++ stripNewlines q := by
  simp [stripNewlines, data_append_chars, List.filter_append]

/-- A character sequence ending in three padding characters never decodes:
the decoder accepts at most two padding characters, only at the very end
of the input. -/
theorem decodeQuanta_append_three :
    ∀ xs : List Char, decodeQuanta (xs ++ ['=', '=', '=']) = none
  | [] => rfl
  | [a] => by
    show decodeQuanta [a, '=', '=', '='] = none
    unfold decodeQuanta
    cases b64UrlVal a <;> rfl
  | [a, b] => by
    show decodeQuanta [a, b, '=', '=', '='] = none
    unfold decodeQuanta
    cases b64UrlVal a <;> cases b64UrlVal b <;> rfl
  | [a, b, c] => by
    show decodeQuanta [a, b, c, '=', '=', '='] = none
    unfold decodeQuanta
    cases b64UrlVal a <;> try rfl
    cases b64UrlVal b <;> try rfl
    by_cases hc : c = '='
    · simp [hc]
    · simp only [if_neg hc]
      cases b64UrlVal c <;> rfl
  | a :: b :: c :: d :: rest => by
    have ih := decodeQuanta_append_three rest
    show decodeQuanta (a :: b :: c :: d :: (rest ++ ['=', '=', '='])) = none
    unfold decodeQuanta
    cases b64UrlVal a <;> try rfl
    cases b64UrlVal b <;> try rfl
    by_cases hc : c = '='
    · simp [hc]
    · simp only [if_neg hc]
      cases b64UrlVal c <;> try rfl
      by_cases hd : d = '='
      · simp [hd]
      · simp only [if_neg hd]
        cases b64UrlVal d <;> try rfl
        rw [ih]

/-- Three appended padding characters make base64url decoding fail. -/
theorem decodeBase64URL_three_pad (p : String) :
    decodeBase64URL (p ++ "===") = none := by
  show decodeQuanta (stripNewlines (p ++ "===")) = none
  rw [stripNewlines_append]
  have h3 : stripNewlines "===" = ['=', '=', '='] := by decide
  rw [h3]
  exact decodeQuanta_append_three _

/-- ParseToken on a token that splits into exactly three parts reduces to
decode-then-unmarshal of the padded middle part. -/
theorem ParseToken_eq_of_split {T : Type} (unm : List Nat → Option T)
    (s hd p sig : String) (hsp : goSplitDot s = [hd, p, sig]) :
    ParseToken unm s =
      match decodeBase64URL (addBase64Padding p) with
      | none => .error .decodeFailed
      | some decoded =>
        match unm decoded with
        | none => .error .unmarshalFailed
        | some claims => .ok claims := by
  unfold ParseToken
  rw [hsp]

/-- A byte length of 1 mod 4 makes the padding step append three
characters. -/
theorem addBase64Padding_mod_one (p : String) (hm : p.utf8ByteSize % 4 = 1) :
    addBase64Padding p = p ++ "===" := by
  have h3 : String.mk (List.replicate (4 - 1) '=') = "===" := by decide
  simp only [addBase64Padding, hm, h3]
  norm_num

/-- A byte length of 2 mod 4 makes the padding step append two
characters. -/
theorem addBase64Padding_mod_two (p : String) (hm : p.utf8ByteSize % 4 = 2) :
    addBase64Padding p = p ++ "==" := by
  have h2 : String.mk (List.replicate (4 - 2) '=') = "==" := by decide
  simp only [addBase64Padding, hm, h2]
  norm_num

/-- A byte length of 3 mod 4 makes the padding step append one
character. -/
theorem addBase64Padding_mod_three (p : String) (hm : p.utf8ByteSize % 4 = 3) :
    addBase64Padding p = p ++ "=" := by
  have h1 : String.mk (List.replicate (4 - 3) '=') = "=" := by decide
  simp only [addBase64Padding, hm, h1]
  norm_num

/-- C1: ParseToken returns an error exactly when the input does not split
on dots into 3 parts, or base64url decoding of the padded second part
fails, or unmarshalling of the decoded bytes fails; otherwise it returns
exactly the unmarshalled value of the decoded second part. -/
theorem parseToken_result_characterisation {T : Type}
    (unm : List Nat → Option T) (s : String) :
    ((∃ e, ParseToken unm s = .error e) ↔
      (goSplitDot s).length ≠ 3 ∨
      ∃ hd p sig, goSplitDot s = [hd, p, sig] ∧
        (decodeBase64URL (addBase64Padding p) = none ∨
         ∃ bs, decodeBase64URL (addBase64Padding p) = some bs ∧
           unm bs = none)) ∧
    (∀ t, ParseToken unm s = .ok t ↔
      ∃ hd p sig bs, goSplitDot s = [hd, p, sig] ∧
        decodeBase64URL (addBase64Padding p) = some bs ∧ unm bs = some t) := by
  rcases hsp : goSplitDot s with _ | ⟨a, _ | ⟨b, _ | ⟨c, _ | ⟨d, l⟩⟩⟩⟩
  · have hpt : ParseToken unm s = .error .invalidFormat := by
      unfold ParseToken
      rw [hsp]
    simp [hpt, hsp]
  · have hpt : ParseToken unm s = .error .invalidFormat := by
      unfold ParseToken
      rw [hsp]
    simp [hpt, hsp]
  · have hpt : ParseToken unm s = .error .invalidFormat := by
      unfold ParseToken
      rw [hsp]
    simp [hpt, hsp]
  · -- exactly three parts
    have hpt := ParseToken_eq_of_split unm s a b c hsp
    cases hdec : decodeBase64URL (addBase64Padding b) with
    | none =>
      have hval : ParseToken unm s = .error .decodeFailed := by
        rw [hpt, hdec]
      constructor
      · exact ⟨fun _ => .inr ⟨a, b, c, rfl, .inl hdec⟩,
          fun _ => ⟨.decodeFailed, hval⟩⟩
      · intro t
        rw [hval]
        constructor
        · intro hok
          exact absurd hok (by simp)
        · rintro ⟨hd, p, sig, bs, hsp2, hdec', hunm'⟩
          simp only [List.cons.injEq, and_true] at hsp2
          obtain ⟨rfl, rfl, rfl⟩ := hsp2
          rw [hdec] at hdec'
          exact absurd hdec' (by simp)
    | some bs =>
      cases hunm : unm bs with
      | none =>
        have hval : ParseToken unm s = .error .unmarshalFailed := by
          rw [hpt, hdec]
          simp [hunm]
        constructor
        · exact ⟨fun _ => .inr ⟨a, b, c, rfl, .inr ⟨bs, hdec, hunm⟩⟩,
            fun _ => ⟨.unmarshalFailed, hval⟩⟩
        · intro t
          rw [hval]
          constructor
          · intro hok
            exact absurd hok (by simp)
          · rintro ⟨hd, p, sig, bs', hsp2, hdec', hunm'⟩
            simp only [List.cons.injEq, and_true] at hsp2
            obtain ⟨rfl, rfl, rfl⟩ := hsp2
            rw [hdec] at hdec'
            injection hdec' with hbs
            subst hbs
            rw [hunm] at hunm'
            exact absurd hunm' (by simp)
      | some t0 =>
        have hval : ParseToken unm s = .ok t0 := by
          rw [hpt, hdec]
          simp [hunm]
        constructor
        · constructor
          · rintro ⟨e, he⟩
            rw [hval] at he
            exact absurd he (by simp)
          · rintro (hlen | ⟨hd, p, sig, hsp2, hbad⟩)
            · exact absurd rfl hlen
            · simp only [List.cons.injEq, and_true] at hsp2
              obtain ⟨rfl, rfl, rfl⟩ := hsp2
              rcases hbad with hnone | ⟨bs', hdec', hunm'⟩
              · rw [hdec] at hnone
                exact absurd hnone (by simp)
              · rw [hdec] at hdec'
                injection hdec' with hbs
                subst hbs
                rw [hunm] at hunm'
                exact absurd hunm' (by simp)
        · intro t
          rw [hval]
          constructor
          · intro h
            injection h with h
            exact ⟨a, b, c, bs, rfl, hdec, h ▸ hunm⟩
          · rintro ⟨hd, p, sig, bs', hsp2, hdec', hunm'⟩
            simp only [List.cons.injEq, and_true] at hsp2
            obtain ⟨rfl, rfl, rfl⟩ := hsp2
            rw [hdec] at hdec'
            injection hdec' with hbs
            subst hbs
            rw [hunm] at hunm'
            injection hunm' with ht
            rw [ht]
  · have hpt : ParseToken unm s = .error .invalidFormat := by
      unfold ParseToken
      rw [hsp]
    constructor
    · constructor
      · intro _
        left
        simp only [List.length_cons]
        omega
      · intro _
        exact ⟨.invalidFormat, hpt⟩
    · intro t
      rw [hpt]
      simp

/-- Witness for C1 at a concrete token. -/
theorem parseToken_result_characterisation_witness :
    ParseToken (fun bs : List Nat => some bs) "x.QQ.y" = .ok [65] :=
  ((parseToken_result_characterisation (fun bs => some bs) "x.QQ.y").2
    [65]).mpr ⟨"x", "QQ", "y", [65], by decide, by decide, rfl⟩

/-- C6: the result of ParseToken depends only on the middle dotted
segment: two tokens that split into three parts with the same second
segment get the same result, and whenever that segment decodes and
unmarshals, the unmarshalled claims are returned as-is (no expiry or any
other claim check). -/
theorem parseToken_depends_only_on_payload {T : Type}
    (unm : List Nat → Option T) (s1 s2 h1 p g1 h2 g2 : String)
    (e1 : goSplitDot s1 = [h1, p, g1]) (e2 : goSplitDot s2 = [h2, p, g2]) :
    ParseToken unm s1 = ParseToken unm s2 ∧
    (∀ bs t, decodeBase64URL (addBase64Padding p) = some bs →
      unm bs = some t → ParseToken unm s1 = .ok t) := by
  have r1 := ParseToken_eq_of_split unm s1 h1 p g1 e1
  have r2 := ParseToken_eq_of_split unm s2 h2 p g2 e2
  refine ⟨r1.trans r2.symm, ?_⟩
  intro bs t hdec hunm
  rw [r1, hdec]
  simp [hunm]

/-- Witness for C6 at two concrete tokens sharing the payload QQ. -/
theorem parseToken_depends_only_on_payload_witness :
    ParseToken (fun bs => some bs) "aa.QQ.bb" =
      ParseToken (fun bs => some bs) "x.QQ.zzz" ∧
    (∀ bs t, decodeBase64URL (addBase64Padding "QQ") = some bs →
      (some bs : Option (List Nat)) = some t →
      ParseToken (fun bs => some bs) "aa.QQ.bb" = .ok t) :=
  parseToken_depends_only_on_payload (fun bs => some bs) "aa.QQ.bb"
    "x.QQ.zzz" "aa" "QQ" "bb" "x" "zzz" (by decide) (by decide)

/-- C10: ParseToken is total; the padding step appends two, one or three
padding characters for byte lengths of 2, 3 or 1 mod 4; unpadded payloads
then decode successfully, while a mod-4 length of 1 always makes decoding
(and hence ParseToken) fail. -/
theorem parseToken_totality_and_padding :
    (∀ (T : Type) (unm : List Nat → Option T) (s : String),
      (∃ t, ParseToken unm s = .ok t) ∨ (∃ e, ParseToken unm s = .error e)) ∧
    (∀ p : String, p.utf8ByteSize % 4 = 2 → addBase64Padding p = p ++ "==") ∧
    (∀ p : String, p.utf8ByteSize % 4 = 3 → addBase64Padding p = p ++ "=") ∧
    decodeBase64URL (addBase64Padding "QQ") = some [65] ∧
    decodeBase64URL (addBase64Padding "QUI") = some [65, 66] ∧
    (∀ p : String, p.utf8ByteSize % 4 = 1 →
      addBase64Padding p = p ++ "===" ∧
      decodeBase64URL (addBase64Padding p) = none) ∧
    (∀ (T : Type) (unm : List Nat → Option T) (s hd p sig : String),
      goSplitDot s = [hd, p, sig] → p.utf8ByteSize % 4 = 1 →
      ParseToken unm s = .error .decodeFailed) := by
  refine ⟨?_, addBase64Padding_mod_two, addBase64Padding_mod_three,
    by decide, by decide, ?_, ?_⟩
  · intro T unm s
    cases h : ParseToken unm s with
    | ok t => exact .inl ⟨t, rfl⟩
    | error e => exact .inr ⟨e, rfl⟩
  · intro p hm
    refine ⟨addBase64Padding_mod_one p hm, ?_⟩
    rw [addBase64Padding_mod_one p hm]
    exact decodeBase64URL_three_pad p
  · intro T unm s hd p sig hsp hm
    rw [ParseToken_eq_of_split unm s hd p sig hsp,
      addBase64Padding_mod_one p hm, decodeBase64URL_three_pad]

/-- Witness for C10 at concrete payloads of each length class. -/
theorem parseToken_totality_and_padding_witness :
    ((∃ t, ParseToken (fun bs => some bs) "x.QQ.y" = .ok t) ∨
      (∃ e, ParseToken (fun bs => some bs) "x.QQ.y" = .error e)) ∧
    addBase64Padding "QQ" = "QQ" ++ "==" ∧
    addBase64Padding "QUI" = "QUI" ++ "=" ∧
    (addBase64Padding "Q" = "Q" ++ "===" ∧
      decodeBase64URL (addBase64Padding "Q") = none) ∧
    ParseToken (fun bs => some bs) "x.Q.y" = .error .decodeFailed := by
  refine ⟨?_, ?_, ?_, ?_, ?_⟩
  · exact parseToken_totality_and_padding.1 (List Nat) (fun bs => some bs)
      "x.QQ.y"
  · exact parseToken_totality_and_padding.2.1 "QQ" (by decide)
  · exact parseToken_totality_and_padding.2.2.1 "QUI" (by decide)
  · exact parseToken_totality_and_padding.2.2.2.2.2.1 "Q" (by decide)
  · exact parseToken_totality_and_padding.2.2.2.2.2.2 (List Nat)
      (fun bs => some bs) "x.Q.y" "x" "Q" "y" (by decide) (by decide)

/-! ## Claim theorems about the handler -/

/-- C2: once Do reaches the callback (request parsed, validation passed or
skipped), a callback error is answered with exactly the error envelope for
that error, and a non-stream result with the OK envelope around the data;
each case writes that single response. -/
theorem do_maps_callback_result {T R E V S : Type} (h : Handler T R)
    (c : Ctx R) (requestPtr : Option R) (validateRequest impl : Bool)
    (req2 : Option R)
    (hp : requestParserIfNeeded (E := E) (V := V) (S := S) c requestPtr =
      (none, req2))
    (hv : validateRequest = false ∨ h.validateStruct req2 = true) :
    (∀ e : E, (Do h c requestPtr validateRequest impl
        (.error e : Except E (DoData V S))).resp = .errEnvelope e ∧
      (Do h c requestPtr validateRequest impl
        (.error e : Except E (DoData V S))).doFuncInvoked = true) ∧
    (∀ v : V, (Do h c requestPtr validateRequest impl
        (.ok (.plain v) : Except E (DoData V S))).resp =
          .okEnvelope (.plain v) ∧
      (Do h c requestPtr validateRequest impl
        (.ok (.plain v) : Except E (DoData V S))).doFuncInvoked = true) := by
  have hval : (validateRequest && !(h.validateStruct req2)) = false := by
    rcases hv with hv | hv <;> simp [hv]
  constructor <;> intro x <;> simp [Do, hp, hval]

/-- Witness for C2 on a POST context with passing validation. -/
theorem do_maps_callback_result_witness :
    (Do handlerAccept ctxPost (some 0) true true
      (.error "boom" : Except String (DoData Nat Nat))).resp =
        .errEnvelope "boom" ∧
    (Do handlerAccept ctxPost (some 0) true true
      (.ok (.plain 5) : Except String (DoData Nat Nat))).resp =
        .okEnvelope (.plain 5) := by
  have hmain := do_maps_callback_result (E := String) (V := Nat) (S := Nat)
    handlerAccept ctxPost (some 0) true true (some 1) rfl (.inr rfl)
  exact ⟨(hmain.1 "boom").1, (hmain.2 5).1⟩

/-- C3: validation is optional and gates the callback, in Do and in
DoMultipart: with validation on, a rejecting validator yields the
DataInvalidError envelope (code CLE029, message Invalid data provided)
and the callback is never invoked; with validation off the validator is
never called and the callback runs. -/
theorem validation_gates_callback {T R E V S : Type} (h : Handler T R)
    (c : Ctx R) (req : R) (req2 : Option R) (impl implM : Bool)
    (allowedTypes : List String) (doFunc : Except E (DoData V S)) :
    ((requestParserIfNeeded (E := E) (V := V) (S := S) c (some req) =
        (none, req2)) →
      h.validateStruct req2 = false →
      (Do h c (some req) true impl doFunc).resp =
        .dataInvalid ⟨"CLE029", "Invalid data provided"⟩ ∧
      (Do h c (some req) true impl doFunc).doFuncInvoked = false) ∧
    ((requestParserIfNeeded (E := E) (V := V) (S := S) c (some req) =
        (none, req2)) →
      (Do h c (some req) false impl doFunc).validatorCalled = false ∧
      (Do h c (some req) false impl doFunc).doFuncInvoked = true) ∧
    (¬(c.method = "GET" ∨ c.method = "DELETE") → c.multipartFormOk = true →
      implM = true → ∀ r2, c.formFieldsSet req = .ok r2 →
      h.validateStruct (some (c.fileFieldsSet true allowedTypes r2)) =
        false →
      (DoMultipart h c (some req) true allowedTypes implM impl doFunc).resp =
        .dataInvalid ⟨"CLE029", "Invalid data provided"⟩ ∧
      (DoMultipart h c (some req) true allowedTypes implM impl
        doFunc).doFuncInvoked = false) ∧
    (¬(c.method = "GET" ∨ c.method = "DELETE") → c.multipartFormOk = true →
      implM = true → ∀ r2, c.formFieldsSet req = .ok r2 →
      (DoMultipart h c (some req) false allowedTypes implM impl
        doFunc).validatorCalled = false ∧
      (DoMultipart h c (some req) false allowedTypes implM impl
        doFunc).doFuncInvoked = true) := by
  refine ⟨?_, ?_, ?_, ?_⟩
  · intro hp hrej
    simp [Do, hp, hrej, NewDataInvalidError]
  · intro hp
    rcases doFunc with e | d
    · simp [Do, hp]
    · rcases d with v | s <;> simp [Do, hp]
  · intro hm hmp hiM r2 hff hrej
    subst hiM
    simp [DoMultipart, hm, hmp, hff, hrej, NewDataInvalidError]
  · intro hm hmp hiM r2 hff
    subst hiM
    rcases doFunc with e | d
    · simp [DoMultipart, hm, hmp, hff]
    · rcases d with v | s <;> simp [DoMultipart, hm, hmp, hff]

/-- Witness for C3: a rejecting validator blocks both entry points, and
with validation off the callback runs. -/
theorem validation_gates_callback_witness :
    (Do handlerReject ctxPost (some 0) true true
      (.ok (.plain 5) : Except String (DoData Nat Nat))).resp =
        .dataInvalid ⟨"CLE029", "Invalid data provided"⟩ ∧
    (Do handlerReject ctxPost (some 0) false true
      (.ok (.plain 5) : Except String (DoData Nat Nat))).doFuncInvoked =
        true ∧
    (DoMultipart handlerReject ctxMulti (some 0) true [] true true
      (.ok (.plain 5) : Except String (DoData Nat Nat))).resp =
        .dataInvalid ⟨"CLE029", "Invalid data provided"⟩ ∧
    (DoMultipart handlerReject ctxMulti (some 0) false [] true true
      (.ok (.plain 5) : Except String (DoData Nat Nat))).validatorCalled =
        false := by
  have hmain := validation_gates_callback handlerReject ctxMulti 0 (some 1)
    true true [] (.ok (.plain 5) : Except String (DoData Nat Nat))
  have hdo := validation_gates_callback handlerReject ctxPost 0 (some 1)
    true true [] (.ok (.plain 5) : Except String (DoData Nat Nat))
  refine ⟨(hdo.1 rfl rfl).1, (hdo.2.1 rfl).2, ?_, ?_⟩
  · exact (hmain.2.2.1 (by decide) rfl rfl 0 rfl rfl).1
  · exact (hmain.2.2.2 (by decide) rfl rfl 0 rfl).1

/-- C4: with a non-nil requestPtr, GET and DELETE parse the query string
and every other method parses the body; a failed parse is answered with
the BadRequest envelope and the callback is never invoked. -/
theorem do_request_parsing {T R E V S : Type} (h : Handler T R) (c : Ctx R)
    (req : R) (validateRequest impl : Bool)
    (doFunc : Except E (DoData V S)) :
    ((c.method = "GET" ∨ c.method = "DELETE") →
      ∀ r2, c.queryParse req = .ok r2 →
        requestParserIfNeeded (E := E) (V := V) (S := S) c (some req) =
          (none, some r2)) ∧
    (¬(c.method = "GET" ∨ c.method = "DELETE") →
      ∀ r2, c.bodyParse req = .ok r2 →
        requestParserIfNeeded (E := E) (V := V) (S := S) c (some req) =
          (none, some r2)) ∧
    ((c.method = "GET" ∨ c.method = "DELETE") →
      c.queryParse req = .error () →
      (Do h c (some req) validateRequest impl doFunc).resp =
        .badRequest none ∧
      (Do h c (some req) validateRequest impl doFunc).doFuncInvoked =
        false) ∧
    (¬(c.method = "GET" ∨ c.method = "DELETE") →
      c.bodyParse req = .error () →
      (Do h c (some req) validateRequest impl doFunc).resp =
        .badRequest none ∧
      (Do h c (some req) validateRequest impl doFunc).doFuncInvoked =
        false) := by
  refine ⟨?_, ?_, ?_, ?_⟩
  · intro hm r2 hq
    simp [requestParserIfNeeded, hm, hq]
  · intro hm r2 hb
    simp [requestParserIfNeeded, hm, hb]
  · intro hm hq
    have hfail : requestParserIfNeeded (E := E) (V := V) (S := S) c
        (some req) = (some (.badRequest none), some req) := by
      simp [requestParserIfNeeded, hm, hq]
    simp [Do, hfail]
  · intro hm hb
    have hfail : requestParserIfNeeded (E := E) (V := V) (S := S) c
        (some req) = (some (.badRequest none), some req) := by
      simp [requestParserIfNeeded, hm, hb]
    simp [Do, hfail]

/-- Witness for C4 on the four method/parser-outcome combinations. -/
theorem do_request_parsing_witness :
    requestParserIfNeeded (E := String) (V := Nat) (S := Nat) ctxGet
      (some 0) = (none, some 2) ∧
    requestParserIfNeeded (E := String) (V := Nat) (S := Nat) ctxPost
      (some 0) = (none, some 1) ∧
    (Do handlerAccept ctxGetBad (some 0) true true
      (.ok (.plain 5) : Except String (DoData Nat Nat))).resp =
        .badRequest none ∧
    (Do handlerAccept ctxPostBad (some 0) true true
      (.ok (.plain 5) : Except String (DoData Nat Nat))).doFuncInvoked =
        false := by
  refine ⟨?_, ?_, ?_, ?_⟩
  · exact (do_request_parsing handlerAccept ctxGet 0 true true
      (.ok (.plain 5) : Except String (DoData Nat Nat))).1 (.inl rfl) 2 rfl
  · exact (do_request_parsing handlerAccept ctxPost 0 true true
      (.ok (.plain 5) : Except String (DoData Nat Nat))).2.1 (by decide) 1
        rfl
  · exact ((do_request_parsing handlerAccept ctxGetBad 0 true true
      (.ok (.plain 5) : Except String (DoData Nat Nat))).2.2.1 (.inl rfl)
        rfl).1
  · exact ((do_request_parsing handlerAccept ctxPostBad 0 true true
      (.ok (.plain 5) : Except String (DoData Nat Nat))).2.2.2 (by decide)
        rfl).2

/-- C5: when the callback succeeds with a *streamx.Stream, Do sends the
stream with an attachment header from its content type and filename, and
with the size argument exactly when Size is non-nil, instead of any OK
envelope. -/
theorem do_stream_response {T R E V S : Type} (h : Handler T R) (c : Ctx R)
    (requestPtr : Option R) (validateRequest impl : Bool) (req2 : Option R)
    (s : Stream S)
    (hp : requestParserIfNeeded (E := E) (V := V) (S := S) c requestPtr =
      (none, req2))
    (hv : validateRequest = false ∨ h.validateStruct req2 = true) :
    (Do h c requestPtr validateRequest impl
      (.ok (.stream s) : Except E (DoData V S))).resp =
        .streamSent s.contentType s.filename s.data s.size ∧
    (∀ d : DoData V S,
      (Do h c requestPtr validateRequest impl
        (.ok (.stream s) : Except E (DoData V S))).resp ≠
          .okEnvelope d) := by
  have hval : (validateRequest && !(h.validateStruct req2)) = false := by
    rcases hv with hv | hv <;> simp [hv]
  have hsend : sendStream (E := E) (V := V) s =
      .streamSent s.contentType s.filename s.data s.size := by
    obtain ⟨ct, fn, sz, dt⟩ := s
    cases sz <;> rfl
  constructor
  · simp [Do, hp, hval, hsend]
  · intro d
    simp [Do, hp, hval, hsend]

/-- Witness for C5 with and without a size. -/
theorem do_stream_response_witness :
    (Do handlerAccept ctxPost (some 0) true true
      (.ok (.stream ⟨"application/pdf", "f.pdf", some 9, 3⟩) :
        Except String (DoData Nat Nat))).resp =
      .streamSent "application/pdf" "f.pdf" 3 (some 9) ∧
    (Do handlerAccept ctxPost (some 0) true true
      (.ok (.stream ⟨"text/plain", "g.txt", none, 4⟩) :
        Except String (DoData Nat Nat))).resp =
      .streamSent "text/plain" "g.txt" 4 none := by
  refine ⟨?_, ?_⟩
  · exact (do_stream_response handlerAccept ctxPost (some 0) true true
      (some 1) ⟨"application/pdf", "f.pdf", some 9, 3⟩ rfl (.inr rfl)).1
  · exact (do_stream_response handlerAccept ctxPost (some 0) true true
      (some 1) ⟨"text/plain", "g.txt", none, 4⟩ rfl (.inr rfl)).1

/-- C7: whenever Do or DoMultipart gets past parsing and validation with a
request implementing core.Request, SetRequestInfo receives a RequestInfo
whose Claims is exactly the token parser's result for the selected token;
claims are nil when the token is empty or unparsable, and in either case
the callback still runs. -/
theorem handler_sets_request_info {T R E V S : Type} (h : Handler T R)
    (c : Ctx R) (req : R) (req2 : Option R) (validateRequest : Bool)
    (allowedTypes : List String) (implM : Bool)
    (doFunc : Except E (DoData V S)) :
    ((requestParserIfNeeded (E := E) (V := V) (S := S) c (some req) =
        (none, req2)) →
      (validateRequest = false ∨ h.validateStruct req2 = true) →
      (Do h c (some req) validateRequest true doFunc).infoSet =
        some ⟨getUserRequestInfo h c⟩ ∧
      (Do h c (some req) validateRequest true doFunc).doFuncInvoked =
        true) ∧
    (¬(c.method = "GET" ∨ c.method = "DELETE") → c.multipartFormOk = true →
      implM = true → ∀ r2, c.formFieldsSet req = .ok r2 →
      (validateRequest = false ∨
        h.validateStruct
          (some (c.fileFieldsSet validateRequest allowedTypes r2)) =
          true) →
      (DoMultipart h c (some req) validateRequest allowedTypes implM true
        doFunc).infoSet = some ⟨getUserRequestInfo h c⟩ ∧
      (DoMultipart h c (some req) validateRequest allowedTypes implM true
        doFunc).doFuncInvoked = true) ∧
    (tokenSource c = "" → getUserRequestInfo h c = none) ∧
    (∀ err, h.tokenParse (tokenSource c) = .error err →
      getUserRequestInfo h c = none) := by
  refine ⟨?_, ?_, ?_, ?_⟩
  · intro hp hv
    have hval : (validateRequest && !(h.validateStruct req2)) = false := by
      rcases hv with hv | hv <;> simp [hv]
    rcases doFunc with e | d
    · simp [Do, hp, hval]
    · rcases d with v | s <;> simp [Do, hp, hval]
  · intro hm hmp hiM r2 hff hv
    subst hiM
    have hval : (validateRequest &&
        !(h.validateStruct
          (some (c.fileFieldsSet validateRequest allowedTypes r2)))) =
        false := by
      rcases hv with hv | hv <;> simp [hv]
    rcases doFunc with e | d
    · simp [DoMultipart, hm, hmp, hff, hval]
    · rcases d with v | s <;> simp [DoMultipart, hm, hmp, hff, hval]
  · intro htok
    simp [getUserRequestInfo, getRequestInfo, htok]
  · intro err herr
    simp [getUserRequestInfo, getRequestInfo, herr]

/-- Witness for C7: claims injected on both entry points, nil claims on an
absent and on an unparsable token. -/
theorem handler_sets_request_info_witness :
    (Do handlerAccept ctxPost (some 0) true true
      (.ok (.plain 5) : Except String (DoData Nat Nat))).infoSet =
        some ⟨getUserRequestInfo handlerAccept ctxPost⟩ ∧
    (DoMultipart handlerAccept ctxMulti (some 0) false [] true true
      (.ok (.plain 5) : Except String (DoData Nat Nat))).infoSet =
        some ⟨getUserRequestInfo handlerAccept ctxMulti⟩ ∧
    getUserRequestInfo handlerAccept ctxPostBad = none ∧
    getUserRequestInfo handlerReject ctxPost = none := by
  refine ⟨?_, ?_, ?_, ?_⟩
  · exact ((handler_sets_request_info handlerAccept ctxPost 0 (some 1) true
      [] true (.ok (.plain 5) : Except String (DoData Nat Nat))).1 rfl
        (.inr rfl)).1
  · exact ((handler_sets_request_info handlerAccept ctxMulti 0 (some 0)
      false [] true (.ok (.plain 5) : Except String (DoData Nat Nat))).2.1
        (by decide) rfl rfl 0 rfl (.inl rfl)).1
  · exact (handler_sets_request_info handlerAccept ctxPostBad 0 none false
      [] true (.ok (.plain 5) : Except String (DoData Nat Nat))).2.2.1 rfl
  · exact (handler_sets_request_info handlerReject ctxPost 0 none false []
      true (.ok (.plain 5) : Except String (DoData Nat Nat))).2.2.2
        "parse" rfl

/-- C8: DoMultipart returns nil untouched for GET or DELETE and for a nil
request: no response is written, the multipart form is not parsed, the
validator and the callback never run and no request info is set. -/
theorem doMultipart_early_nil {T R E V S : Type} (h : Handler T R)
    (c : Ctx R) (requestPtr : Option R) (validateRequest : Bool)
    (allowedTypes : List String) (implM impl : Bool)
    (doFunc : Except E (DoData V S)) :
    ((c.method = "GET" ∨ c.method = "DELETE") →
      DoMultipart h c requestPtr validateRequest allowedTypes implM impl
        doFunc = ⟨.nil, none, false, false, false⟩) ∧
    (DoMultipart h c none validateRequest allowedTypes implM impl doFunc =
      ⟨.nil, none, false, false, false⟩) := by
  constructor
  · intro hm
    simp [DoMultipart, hm]
  · by_cases hm : c.method = "GET" ∨ c.method = "DELETE" <;>
      simp [DoMultipart, hm]

/-- Witness for C8 on a GET context. -/
theorem doMultipart_early_nil_witness :
    DoMultipart handlerAccept ctxGetBad (some 0) true [] true true
      (.ok (.plain 5) : Except String (DoData Nat Nat)) =
      ⟨.nil, none, false, false, false⟩ ∧
    DoMultipart handlerAccept ctxPost none true [] true true
      (.ok (.plain 5) : Except String (DoData Nat Nat)) =
      ⟨.nil, none, false, false, false⟩ := by
  refine ⟨?_, ?_⟩
  · exact (doMultipart_early_nil handlerAccept ctxGetBad (some 0) true []
      true true (.ok (.plain 5) : Except String (DoData Nat Nat))).1
        (.inl rfl)
  · exact (doMultipart_early_nil handlerAccept ctxPost (some 0) true []
      true true (.ok (.plain 5) : Except String (DoData Nat Nat))).2

/-- C9: the token handed to the parser comes from the token form value on
multipart forms, otherwise from the Authorization bearer token, and only
when that is empty from the body's access-token field; a non-empty
Authorization token is never overridden. -/
theorem token_source_selection {T R : Type} (h : Handler T R) (c : Ctx R) :
    (c.isMultipartForm = true → tokenSource c = c.formTokenValue) ∧
    (c.isMultipartForm = false → c.authBearerToken ≠ "" →
      tokenSource c = c.authBearerToken) ∧
    (c.isMultipartForm = false → c.authBearerToken = "" →
      tokenSource c = c.bodyAccessToken) ∧
    getUserRequestInfo h c = getRequestInfo h (tokenSource c) := by
  refine ⟨?_, ?_, ?_, rfl⟩
  · intro h1
    simp [tokenSource, h1]
  · intro h1 h2
    simp [tokenSource, getRequestToken, h1, h2]
  · intro h1 h2
    simp [tokenSource, getRequestToken, h1, h2]

/-- Witness for C9 on the three context shapes. -/
theorem token_source_selection_witness :
    tokenSource ctxMulti = "ftok" ∧ tokenSource ctxPost = "tok9" ∧
    tokenSource ctxGetBad = "btok" := by
  refine ⟨?_, ?_, ?_⟩
  · exact (token_source_selection handlerAccept ctxMulti).1 rfl
  · exact (token_source_selection handlerAccept ctxPost).2.1 rfl
      (by decide)
  · exact (token_source_selection handlerAccept ctxGetBad).2.2.1 rfl rfl

end Fiberhandler
